import Mathlib

/-!
Shallow embedding of the MikrotikBilling text-repair scripts
(`src/scripts/fix-print-backticks.py`, `fix-print-python.py`,
`fix-print-final2.py`, `fix-line28.py`).

A document is the file's text as a list of characters.  The repair engine
reads a document, applies an ordered table of exact-literal substitutions
(Python's `str.replace`, which replaces every non-overlapping occurrence
scanning left to right), and writes the result back.
-/

/-- A document: the full text of a file as an ordered list of characters. -/
abbrev Doc := List Char

/-- A rule: a `(find, replace)` pair of exact literals. -/
abbrev Rule := Doc × Doc

/-- Build a rule from two string literals, as the scripts' tables do. -/
def strRule (a b : String) : Rule := (a.toList, b.toList)

/-- `isPre p s` holds when `p` is a prefix of `s` (exact character match). -/
def isPre : Doc → Doc → Bool
  | [], _ => true
  | _ :: _, [] => false
  | a :: as, b :: bs => a == b && isPre as bs

/-- `containsSub pat s` holds when `pat` occurs as a contiguous substring
of `s` (`pat` is a prefix of some suffix of `s`). -/
def containsSub (pat : Doc) : Doc → Bool
  | [] => isPre pat []
  | c :: rest => isPre pat (c :: rest) || containsSub pat rest

/-- Python's `str.replace` with an empty pattern inserts the replacement
before every character and once at the end. -/
def interleave (new : Doc) : Doc → Doc
  | [] => new
  | c :: rest => new ++ c :: interleave new rest

/-- Core scan of Python's `str.replace(old, new)` for nonempty `old`:
scan left to right; at a position where `old` matches, emit `new` and
suppress the next `old.length` characters (non-overlapping matches);
otherwise emit the character.  `suppress` counts characters still owed to
the most recent match. -/
def replCore (old new : Doc) : Nat → Doc → Doc
  | _, [] => []
  | n + 1, _ :: rest => replCore old new n rest
  | 0, c :: rest =>
    if isPre old (c :: rest) then new ++ replCore old new (old.length - 1) rest
    else c :: replCore old new 0 rest

/-- Python's `content.replace(old, new)`: replace every non-overlapping
occurrence of `old` in `content` by `new`, scanning left to right. -/
def replaceAll (old new s : Doc) : Doc :=
  match old with
  | [] => interleave new s
  | _ :: _ => replCore old new 0 s

/-- `for old, new in replacements: content = content.replace(old, new)` —
the left fold of the rule table over the evolving text
(`fix-print-python.py` lines 61–62, and the chained `content.replace`
calls of the other scripts). -/
def applyRules (rules : List Rule) (s : Doc) : Doc :=
  rules.foldl (fun acc r => replaceAll r.1 r.2 acc) s

-- Basic sanity checks of the embedding against Python's semantics.
example : replaceAll "ab".toList "X".toList "abab".toList = "XX".toList := by decide
example : replaceAll "aa".toList "b".toList "aaa".toList = "ba".toList := by decide
example : replaceAll "".toList "X".toList "ab".toList = "XaXbX".toList := by decide
example : replaceAll "ab".toList "a".toList "abb".toList = "ab".toList := by decide
example : containsSub "ab".toList "ab".toList = true := by decide
example : containsSub "ab".toList "a".toList = false := by decide

/-! ### Basic lemmas about prefixes, substring tests and the replace scan -/

theorem isPre_refl (l : Doc) : isPre l l = true := by
  induction l with
  | nil => rfl
  | cons c rest ih => simp [isPre, ih]

theorem isPre_self_append (p t : Doc) : isPre p (p ++ t) = true := by
  induction p with
  | nil => rfl
  | cons c rest ih => simp [isPre, ih]

theorem isPre_append_drop (p : Doc) :
    ∀ s : Doc, isPre p s = true → p ++ List.drop p.length s = s := by
  induction p with
  | nil => intro s _; simp
  | cons c cs ih =>
    intro s h
    cases s with
    | nil => simp [isPre] at h
    | cons b bs =>
      simp only [isPre, Bool.and_eq_true, beq_iff_eq] at h
      simp only [List.length_cons, List.drop_succ_cons, List.cons_append, h.1]
      exact congrArg _ (ih bs h.2)

theorem containsSub_nil_pat (s : Doc) : containsSub [] s = true := by
  cases s <;> simp [containsSub, isPre]

theorem replCore_suppress (old new : Doc) :
    ∀ (s : Doc) (n : Nat), replCore old new n s = replCore old new 0 (List.drop n s) := by
  intro s
  induction s with
  | nil => intro n; cases n <;> simp [replCore]
  | cons c rest ih =>
    intro n
    cases n with
    | zero => simp
    | succ m => simpa [replCore] using ih m

theorem replCore_nomatch (old new : Doc) (c : Char) (rest : Doc)
    (h : isPre old (c :: rest) = false) :
    replCore old new 0 (c :: rest) = c :: replCore old new 0 rest := by
  simp [replCore, h]

theorem replCore_head_match (o : Char) (os new s : Doc) :
    replCore (o :: os) new 0 ((o :: os) ++ s) = new ++ replCore (o :: os) new 0 s := by
  have hpre : isPre (o :: os) ((o :: os) ++ s) = true := isPre_self_append _ _
  simp only [List.cons_append] at hpre ⊢
  rw [replCore, if_pos hpre]
  have hlen : (o :: os).length - 1 = os.length := by simp
  rw [hlen, replCore_suppress, List.drop_left]

theorem replCore_not_contains (old new : Doc) :
    ∀ s : Doc, containsSub old s = false → replCore old new 0 s = s := by
  intro s
  induction s with
  | nil => intro _; rfl
  | cons c rest ih =>
    intro h
    simp only [containsSub, Bool.or_eq_false_iff] at h
    rw [replCore_nomatch old new c rest h.1, ih h.2]

theorem replaceAll_not_contains (old new s : Doc) (h : containsSub old s = false) :
    replaceAll old new s = s := by
  cases old with
  | nil => rw [containsSub_nil_pat] at h; cases h
  | cons o os => exact replCore_not_contains _ new s h

theorem interleave_nil (s : Doc) : interleave [] s = s := by
  induction s with
  | nil => rfl
  | cons c rest ih => simp [interleave, ih]

theorem replCore_self (o : Char) (os : Doc) :
    ∀ (n : Nat) (s : Doc), s.length ≤ n → replCore (o :: os) (o :: os) 0 s = s := by
  intro n
  induction n with
  | zero =>
    intro s hs
    have : s = [] := List.length_eq_zero.mp (Nat.le_zero.mp hs)
    subst this; rfl
  | succ m ih =>
    intro s hs
    cases s with
    | nil => rfl
    | cons c rest =>
      by_cases hpre : isPre (o :: os) (c :: rest) = true
      · rw [replCore, if_pos hpre]
        have hlen : (o :: os).length - 1 = os.length := by simp
        rw [hlen, replCore_suppress]
        have hdrop : (List.drop os.length rest).length ≤ m := by
          have h1 : (c :: rest).length = rest.length + 1 := by simp
          rw [h1] at hs
          simp only [List.length_drop]
          omega
        rw [ih _ hdrop]
        have := isPre_append_drop (o :: os) (c :: rest) hpre
        simpa using this
      · rw [replCore_nomatch _ _ _ _ (Bool.eq_false_iff.mpr hpre)]
        have h1 : rest.length ≤ m := by
          have h2 : (c :: rest).length = rest.length + 1 := by simp
          rw [h2] at hs
          omega
        rw [ih rest h1]

theorem replaceAll_self (old s : Doc) : replaceAll old old s = s := by
  cases old with
  | nil => exact interleave_nil s
  | cons o os => exact replCore_self o os s.length s (Nat.le_refl _)

theorem isPre_single (a c : Char) (rest : Doc) :
    isPre [a] (c :: rest) = (a == c) := by
  simp [isPre]

theorem not_mem_replCore_single (a : Char) (new : Doc) (h : a ∉ new) :
    ∀ s : Doc, a ∉ replCore [a] new 0 s := by
  intro s
  induction s with
  | nil => simp [replCore]
  | cons c rest ih =>
    by_cases hp : isPre [a] (c :: rest) = true
    · rw [replCore, if_pos hp]
      have hlen : ([a] : Doc).length - 1 = 0 := by simp
      rw [hlen]
      simp only [List.mem_append]
      exact fun hmem => hmem.elim h ih
    · rw [replCore_nomatch _ _ _ _ (Bool.eq_false_iff.mpr hp)]
      have hne : a ≠ c := by
        rw [isPre_single] at hp
        simpa using hp
      simp only [List.mem_cons]
      exact fun hmem => hmem.elim hne ih

theorem containsSub_single (a : Char) :
    ∀ s : Doc, containsSub [a] s = true ↔ a ∈ s := by
  intro s
  induction s with
  | nil => simp [containsSub, isPre]
  | cons c rest ih =>
    simp only [containsSub, isPre_single, Bool.or_eq_true, ih, List.mem_cons, beq_iff_eq]

theorem containsSub_ends_with (pat : Doc) :
    ∀ xs : Doc, containsSub pat (xs ++ pat) = true := by
  intro xs
  induction xs with
  | nil =>
    cases pat with
    | nil => rfl
    | cons p ps =>
      simp [containsSub, isPre_refl]
  | cons x rest ih =>
    simp only [List.cons_append, containsSub, List.append_eq, ih, Bool.or_true]

/-! ### Line-indexed mode (`fix-line28.py`)

`f.readlines()` splits the text into lines, each keeping its trailing
newline (the last line may lack one); `f.writelines(lines)` concatenates
the lines back without adding separators. -/

/-- Python's `f.readlines()`: split into lines, keeping each terminating
newline character with its line. -/
def readlines : Doc → List Doc
  | [] => []
  | c :: rest =>
    if c = '\n' then ['\n'] :: readlines rest
    else
      match readlines rest with
      | [] => [[c]]
      | l :: ls => (c :: l) :: ls

/-- Python's `f.writelines(lines)`: concatenate the lines verbatim. -/
def writelinesCat : List Doc → Doc
  | [] => []
  | l :: ls => l ++ writelinesCat ls

theorem readlines_eq_nil (s : Doc) (h : readlines s = []) : s = [] := by
  cases s with
  | nil => rfl
  | cons c rest =>
    by_cases hc : c = '\n'
    · rw [readlines, if_pos hc] at h
      cases h
    · rw [readlines, if_neg hc] at h
      revert h
      cases readlines rest <;> intro h <;> cases h

theorem writelinesCat_readlines (s : Doc) : writelinesCat (readlines s) = s := by
  induction s with
  | nil => rfl
  | cons c rest ih =>
    by_cases hc : c = '\n'
    · rw [readlines, if_pos hc, writelinesCat, ih, hc]
      rfl
    · rw [readlines, if_neg hc]
      cases hr : readlines rest with
      | nil =>
        have : rest = [] := readlines_eq_nil rest hr
        subst this
        rfl
      | cons l ls =>
        rw [hr] at ih
        show (c :: l) ++ writelinesCat ls = c :: rest
        rw [List.cons_append]
        exact congrArg (List.cons c) ih

/-- The find literal of `fix-line28.py` line 9. -/
def find28 : Doc := "ids.split(,`).map".toList

/-- The replace literal of `fix-line28.py` line 9. -/
def repl28 : Doc := "ids.split(',').map".toList

/-- `fix-line28.py` lines 8–9: `if len(lines) > 28: lines[28] =
lines[28].replace(...)` — replace only in the line at index 28, when it
exists. -/
def fixLines28 (lines : List Doc) : List Doc :=
  if 28 < lines.length then
    List.set lines 28 (replaceAll find28 repl28 (List.getD lines 28 []))
  else lines

/-- The whole in-memory transform of `fix-line28.py`: read lines, fix
line index 28, write the lines back. -/
def line28Transform (s : Doc) : Doc := writelinesCat (fixLines28 (readlines s))

theorem get?_set_ne {α : Type} :
    ∀ (l : List α) (n m : Nat) (a : α), n ≠ m → (List.set l n a).get? m = l.get? m := by
  intro l
  induction l with
  | nil => intro n m a _; simp
  | cons c rest ih =>
    intro n m a hne
    cases n with
    | zero =>
      cases m with
      | zero => exact absurd rfl hne
      | succ k => simp [List.set]
    | succ j =>
      cases m with
      | zero => simp [List.set]
      | succ k =>
        simp only [List.set, List.get?]
        exact ih j k a (fun h => hne (by rw [h]))

/-! ### The repair operation over a file-system model

Each script is `open(path) → read → transform → open(path, "w") → write →
print(message)`.  A failing `open` for read raises before any write
(spec: `TargetUnavailable`); the completion message is printed only after
a successful write. -/

/-- The single failure kind the spec names for an unopenable target. -/
inductive RepairError
  | targetUnavailable
deriving DecidableEq

/-- A file-system path. -/
abbrev FPath := String

/-- A file system: an association list from paths to documents.  A path
absent from the list does not exist (or is not readable). -/
abbrev FS := List (FPath × Doc)

/-- `open(path, "r")` followed by a full read: `none` when the target is
missing or unreadable. -/
def readFS : FS → FPath → Option Doc
  | [], _ => none
  | (q, d) :: rest, p => if q = p then some d else readFS rest p

/-- `open(path, "w")` followed by a full write: overwrite the target's
content (creating the file if absent). -/
def writeFS : FS → FPath → Doc → FS
  | [], p, d => [(p, d)]
  | (q, e) :: rest, p, d =>
    if q = p then (p, d) :: rest else (q, e) :: writeFS rest p d

/-- One repair call: read the target, transform the document, write it
back, and print one completion message.  On a failed read nothing is
written and nothing is printed. -/
def repair (transform : Doc → Doc) (message : FPath → String) (fs : FS) (p : FPath) :
    Except RepairError (FS × List String) :=
  match readFS fs p with
  | none => Except.error RepairError.targetUnavailable
  | some d => Except.ok (writeFS fs p (transform d), [message p])

/-- The status messages a repair call emitted: none when it failed. -/
def msgsOf (r : Except RepairError (FS × List String)) : List String :=
  match r with
  | Except.ok (_, ms) => ms
  | Except.error _ => []

/-- Outcome of the write step `with open(path, "w") as f: f.write(content)`:
it succeeds, or the open itself fails, or the open succeeds and the write
fails after `k` characters were flushed. -/
inductive WriteOutcome
  | ok
  | openFail
  | failAfter (k : Nat)
deriving DecidableEq

/-- On-disk content of the target after the write step, given the step's
outcome, the pre-repair content `old` and the repaired text `new`.
`open(path, "w")` truncates the file as soon as it succeeds, so a write
that fails after the open leaves only the `k` characters already
flushed. -/
def diskAfterWrite : WriteOutcome → Doc → Doc → Doc
  | WriteOutcome.ok, _, new => new
  | WriteOutcome.openFail, old, _ => old
  | WriteOutcome.failAfter k, _, new => List.take k new

/-- One full script run with an explicit outcome for the write step:
read the target, transform the document, attempt the write, and only
after a successful write print the one completion message (in every
script the `print` follows the write block, so a failed open-for-write
or failed write terminates the run before any message).  Returns the
resulting file system and the messages printed.  A failed read leaves
the file system untouched; after an attempted write the target holds
`diskAfterWrite` of the outcome. -/
def repairRun (transform : Doc → Doc) (message : FPath → String)
    (w : WriteOutcome) (fs : FS) (p : FPath) : FS × List String :=
  match readFS fs p with
  | none => (fs, [])
  | some d =>
    match w with
    | WriteOutcome.ok => (writeFS fs p (transform d), [message p])
    | WriteOutcome.openFail =>
        (writeFS fs p (diskAfterWrite WriteOutcome.openFail d (transform d)), [])
    | WriteOutcome.failAfter k =>
        (writeFS fs p (diskAfterWrite (WriteOutcome.failAfter k) d (transform d)), [])

/-! ### The scripts' rule tables

Transcribed literally from the sources; `\x7b` and `\x7d` denote the
brace characters. -/

/-- The ordered chain of `content.replace` calls of
`fix-print-backticks.py` lines 8–36. -/
def backticksRules : List Rule :=
  [ strRule "ids.split(,`).map" "ids.split(',').map"
  , strRule "placeholders = voucherIds.map(() => '?`).join(,`)" "placeholders = voucherIds.map(() => '?').join(',')"
  , strRule "fs = require(fs`)" "fs = require('fs')"
  , strRule "path = require(path`)" "path = require('path')"
  , strRule "templateFilePath, utf8`)" "templateFilePath, 'utf8'"
  , strRule "voucher.voucher_code || `)" "voucher.voucher_code || ''"
  , strRule "reply.locals.settings && reply.locals.settings.company_name) || WiFi Hotspot`" "reply.locals.settings && reply.locals.settings.company_name) || 'WiFi Hotspot'"
  , strRule "voucher.vendor_name || Tanpa Vendor`" "voucher.vendor_name || 'Tanpa Vendor'"
  , strRule "new Date(voucher.created_at).toLocaleDateString(id-ID`)" "new Date(voucher.created_at).toLocaleDateString('id-ID')"
  , strRule "formatCurrency(voucher.price_sell).replace(Rp, `).trim()" "formatCurrency(voucher.price_sell).replace('Rp', '').trim()"
  , strRule "templateNameResult.value : Default" "templateNameResult.value : 'Default'"
  , strRule "template === a4 ? cssStyles" "template === 'a4' ? cssStyles"
  , strRule "templateType === a4`)" "templateType === 'a4')"
  , strRule "templateType === thermal`)" "templateType === 'thermal'"
  , strRule "auto_print === 'true'" "auto_print === 'true'"
  , strRule "template = a4," "template = 'a4',"
  , strRule "reply.header('Content-Type', 'text/html')" "reply.header('Content-Type', 'text/html')"
  , strRule "message: 'Internal Server Error'" "message: 'Internal Server Error'"
  , strRule "fastify.get('/batch/:batchId'," "fastify.get('/batch/:batchId',"
  , strRule "templateNameResult.value : 'Default'" "templateNameResult.value : 'Default'"
  , strRule "message: 'Failed to get print templates'" "message: 'Failed to get print templates'"
  , strRule "message: 'Failed to preview template'," "message: 'Failed to preview template',"
  , strRule "fastify.get('/manage'," "fastify.get('/manage',"
  , strRule "reply.view('print/manage'" "reply.view('print/manage'"
  , strRule "message: 'File not allowed'" "message: 'File not allowed'"
  , strRule "message: 'File not found'" "message: 'File not found'"
  , strRule "allowedFiles = ['template_a4.html', 'template_thermal.html']" "allowedFiles = ['template_a4.html', 'template_thermal.html']"
  , strRule ".readFileSync(filePath, 'utf8')" ".readFileSync(filePath, 'utf8')"
  , strRule "printMode: ''" "printMode: ''" ]

/-- The `replacements` table of `fix-print-python.py` lines 9–58. -/
def pythonReplacements : List Rule :=
  [ strRule "let allVouchersHTML = ;" "let allVouchersHTML = '';"
  , strRule "voucher.voucher_code || '';" "voucher.voucher_code || '');"
  , strRule "new Date(voucher.created_at).toLocaleDateString('id-ID'););" "new Date(voucher.created_at).toLocaleDateString('id-ID'));"
  , strRule "formatCurrency(voucher.price_sell).replace('Rp', `).trim());" "formatCurrency(voucher.price_sell).replace('Rp', '').trim());"
  , strRule "[template_name]" "'template_name']"
  , strRule "reply.header(Content-Type, text/html`);" "reply.header('Content-Type', 'text/html');"
  , strRule "fastify.log.error(Error printing vouchers:, error);" "fastify.log.error('Error printing vouchers:', error);"
  , strRule "reply.status(500).view(error, \x7b" "reply.code(500).view('error', \x7b"
  , strRule "message: Internal Server Error," "message: 'Internal Server Error',"
  , strRule "if (templateType === 'a4'); \x7b" "if (templateType === 'a4') \x7b"
  , strRule "\x7d else if (templateType === 'thermal'); \x7b" "\x7d else if (templateType === 'thermal') \x7b"
  , strRule "return ;" "return '';"
  , strRule "fastify.get(/batch/:batchId," "fastify.get('/batch/:batchId',"
  , strRule "reply.status(404).view(error, \x7b" "reply.code(404).view('error', \x7b"
  , strRule "message: Batch not found," "message: 'Batch not found',"
  , strRule "error: No vouchers found for this batch" "error: 'No vouchers found for this batch'"
  , strRule "const fs = require(fs`);" "const fs = require('fs');"
  , strRule "const path = require(path`);" "const path = require('path');"
  , strRule "__dirname, ../../views/print-templates`);" "__dirname, '../../views/print-templates');"
  , strRule "file.endsWith(.ejs`);" "file.endsWith('.ejs');"
  , strRule "file.replace(.ejs, `);" "file.replace('.ejs', '');"
  , strRule "+ Template," "+ ' Template',"
  , strRule "fastify.log.error(Error getting print templates:, error);" "fastify.log.error('Error getting print templates:', error);"
  , strRule "fastify.log.error(Error previewing print template:, error);" "fastify.log.error('Error previewing print template:', error);"
  , strRule "message: Failed to preview template," "message: 'Failed to preview template',"
  , strRule "printMode: ," "printMode: '',"
  , strRule "fastify.get(/manage," "fastify.get('/manage',"
  , strRule "reply.view('print/manage''" "reply.view('print/manage'"
  , strRule "allowedFiles = [template_a4.html, template_thermal.html];" "allowedFiles = ['template_a4.html', 'template_thermal.html'];"
  , strRule "fs.readFileSync(filePath, utf8`);" "fs.readFileSync(filePath, 'utf8');"
  , strRule "reply.locals.settings && reply.locals.settings.company_name) || WiFi Hotspot`" "reply.locals.settings && reply.locals.settings.company_name) || 'WiFi Hotspot'"
  , strRule "voucher.vendor_name || Tanpa Vendor`" "voucher.vendor_name || 'Tanpa Vendor'"
  , strRule "new Date(voucher.created_at).toLocaleDateString(id-ID`)" "new Date(voucher.created_at).toLocaleDateString('id-ID')"
  , strRule "formatCurrency(voucher.price_sell).replace(Rp, `).trim()" "formatCurrency(voucher.price_sell).replace('Rp', '').trim()"
  , strRule "templateNameResult.value : Default" "templateNameResult.value : 'Default'"
  , strRule "template === a4 ? cssStyles" "template === 'a4' ? cssStyles"
  , strRule "templateType === a4`);" "templateType === 'a4');"
  , strRule "templateType === thermal`);" "templateType === 'thermal');"
  , strRule "template = a4," "template = 'a4',"
  , strRule "message: 'Failed to get print templates'" "message: 'Failed to get print templates'"
  , strRule "fastify.get(/batch/:batchId," "fastify.get('/batch/:batchId',"
  , strRule "reply.view('print/manage''" "reply.view('print/manage'"
  , strRule "reply.view('print/manage'" "reply.view('print/manage',"
  , strRule "reply.view('print/manage'," "reply.view('print/manage',"
  , strRule "message: 'File not allowed'" "message: 'File not allowed'"
  , strRule "message: 'File not found'" "message: 'File not found'"
  , strRule "auto_print === 'true'" "auto_print === 'true'"
  , strRule "message: `Template $\x7btemplate\x7d not found`" "message: `Template $\x7btemplate\x7d not found`" ]

/-- The ordered chain of `content.replace` calls of
`fix-print-final2.py` lines 9–92. -/
def final2Rules : List Rule :=
  [ strRule "voucherHTML.replace(/\x7bHargaJual\x7d/g, formatCurrency(voucher.price_sell).replace(Rp, `);.trim());" "voucherHTML.replace(/\x7bHargaJual\x7d/g, formatCurrency(voucher.price_sell).replace('Rp', '').trim());"
  , strRule "const templateNameResult = await db.query(`SELECT value FROM settings WHERE key = $1`, 'template_name']);" "const templateNameResult = await db.query(`SELECT value FROM settings WHERE key = $1`, ['template_name']);"
  , strRule "const templateNameResult = await db.query(`SELECT value FROM settings WHERE key = $1`, 'template_name']);" "const templateNameResult = await db.query(`SELECT value FROM settings WHERE key = $1`, ['template_name']);"
  , strRule "const fs = require('fs`);" "const fs = require('fs');"
  , strRule "if (file.endsWith('.ejs');)" "if (file.endsWith('.ejs'))"
  , strRule "+ Template," "+ ' Template',"
  , strRule "reply.view('print/manage'," "reply.view('print/manage',"
  , strRule "reply.view('print/manage',," "reply.view('print/manage',"
  , strRule "allowedFiles = [template_a4.html, template_thermal.html];" "allowedFiles = ['template_a4.html', 'template_thermal.html'];"
  , strRule "reply.status(500).view('error', \x7b" "reply.code(500).view('error', \x7b"
  , strRule "reply.status(404).view('error', \x7b" "reply.code(404).view('error', \x7b"
  , strRule "reply.status(400).send(\x7b" "reply.code(400).send(\x7b"
  , strRule "reply.status(500).send(\x7b" "reply.code(500).send(\x7b"
  , strRule "reply.status(404).send(" "reply.code(404).send("
  , strRule "reply.status(403).send(" "reply.code(403).send("
  , strRule "reply.status(500).send(" "reply.code(500).send("
  , strRule "\x7d else if (templateType === 'thermal'; \x7b" "\x7d else if (templateType === 'thermal') \x7b" ]

/-- `fix-print-backticks.py` as one repair call. -/
def repairBackticks : FS → FPath → Except RepairError (FS × List String) :=
  repair (applyRules backticksRules) (fun p => "Fixed backticks in " ++ p)

/-- `fix-print-python.py` as one repair call; its completion message is a
fixed string. -/
def repairPython : FS → FPath → Except RepairError (FS × List String) :=
  repair (applyRules pythonReplacements) (fun _ => "Fixed print.py syntax errors")

/-- `fix-print-final2.py` as one repair call; its completion message is a
fixed string. -/
def repairFinal2 : FS → FPath → Except RepairError (FS × List String) :=
  repair (applyRules final2Rules) (fun _ => "Fixed remaining print.js errors")

/-- `fix-line28.py` as one repair call. -/
def repairLine28 : FS → FPath → Except RepairError (FS × List String) :=
  repair line28Transform (fun p => "Fixed line 29 in " ++ p)

/-! ### The claims -/

/-- Claim C1, as stated, is false: after one application of a rule whose
replace does not contain its find, the find literal can still occur in
the text, formed across the boundary of an inserted replace.  Concretely
`"abb".replace("ab", "a") = "ab"`, which contains the find `"ab"`, while
the replace `"a"` does not contain `"ab"`. -/
theorem c1_counterexample :
    containsSub "ab".toList "a".toList = false ∧
    replaceAll "ab".toList "a".toList "abb".toList = "ab".toList ∧
    containsSub "ab".toList (replaceAll "ab".toList "a".toList "abb".toList) = true := by
  decide

/-- Claim C1, amended: applying a rule in whole-text mode replaces every
occurrence of the find literal in the current text, not only the first
(replacing at a match continues over the rest of the text, and
`"aa".replace("a", "b") = "bb"`); and when the find is a single character
that does not occur in the replace, one application removes every
occurrence of the find.  (For a longer find, a fresh occurrence may span
the boundary of an inserted replace even when the replace does not
contain the find.) -/
theorem c1_replaces_all_occurrences (o : Char) (os new s : Doc)
    (a : Char) (new2 s2 : Doc) (h : a ∉ new2) :
    replaceAll (o :: os) new ((o :: os) ++ s) = new ++ replaceAll (o :: os) new s ∧
    replaceAll "a".toList "b".toList "aa".toList = "bb".toList ∧
    containsSub [a] (replaceAll [a] new2 s2) = false := by
  refine ⟨replCore_head_match o os new s, by decide, ?_⟩
  show containsSub [a] (replCore [a] new2 0 s2) = false
  rw [Bool.eq_false_iff]
  intro hc
  exact not_mem_replCore_single a new2 h s2 ((containsSub_single a _).mp hc)

/-- Witness for the amended C1 at a concrete rule, document and
character. -/
theorem c1_replaces_all_occurrences_witness :
    replaceAll ('x' :: "y".toList) "Q".toList (('x' :: "y".toList) ++ "txyu".toList) =
      "Q".toList ++ replaceAll ('x' :: "y".toList) "Q".toList "txyu".toList ∧
    replaceAll "a".toList "b".toList "aa".toList = "bb".toList ∧
    containsSub ['z'] (replaceAll ['z'] "qq".toList "azbza".toList) = false :=
  c1_replaces_all_occurrences 'x' "y".toList "Q".toList "txyu".toList
    'z' "qq".toList "azbza".toList (by decide)

/-- Claim C2: rule application is a left fold over the rule table — the
output of rule `i` is the input of rule `i+1` — and on the spec's example
table `[(a, b), (b, c)]` applied to `"a"` the result is `"c"` (chained
rewriting over the evolving text), not `"b"`. -/
theorem c2_left_fold_chaining (r : Rule) (rs : List Rule) (s : Doc) :
    applyRules (r :: rs) s = applyRules rs (replaceAll r.1 r.2 s) ∧
    applyRules [strRule "a" "b", strRule "b" "c"] "a".toList = "c".toList ∧
    "c".toList ≠ "b".toList :=
  ⟨rfl, by decide, by decide⟩

/-- Claim C3: applying `[(x, xy)]` to `"x"` yields `"xy"`, and applying it
again yields `"xyy"` — whole-text application is not idempotent when the
replace contains the find, and the implementation reproduces this
exactly.  The table of `fix-print-python.py` really has such a rule: the
find of entry 42 (source line 52) occurs in its own replace. -/
theorem c3_non_idempotent :
    applyRules [strRule "x" "xy"] "x".toList = "xy".toList ∧
    applyRules [strRule "x" "xy"] "xy".toList = "xyy".toList ∧
    "xyy".toList ≠ "xy".toList ∧
    containsSub (pythonReplacements.getD 42 ([], [])).1
      (pythonReplacements.getD 42 ([], [])).2 = true := by
  decide

/-- Claim C4: if no find literal of any rule of the table occurs in the
document, applying the table returns the document byte-identically — a
rule that does not match is a no-op, not an error. -/
theorem c4_noop_when_no_find_occurs (R : List Rule) (D : Doc)
    (h : ∀ r ∈ R, containsSub r.1 D = false) :
    applyRules R D = D := by
  induction R with
  | nil => rfl
  | cons r rs ih =>
    show applyRules rs (replaceAll r.1 r.2 D) = D
    rw [replaceAll_not_contains r.1 r.2 D (h r (List.mem_cons_self r rs))]
    exact ih fun q hq => h q (List.mem_cons_of_mem r hq)

/-- Witness for C4 on a concrete table and document. -/
theorem c4_noop_when_no_find_occurs_witness :
    applyRules [strRule "qq" "zz", strRule "vv" "ww"] "abcabc".toList = "abcabc".toList :=
  c4_noop_when_no_find_occurs [strRule "qq" "zz", strRule "vv" "ww"] "abcabc".toList
    (by decide)

/-- Claim C5: in line-indexed mode (`fix-line28.py`), the rule bound to
line index 28 modifies at most that line — every other line of the
document is byte-identical after the repair, whatever its content. -/
theorem c5_line_isolation (lines : List Doc) (j : Nat) (h : j ≠ 28) :
    (fixLines28 lines).get? j = lines.get? j := by
  unfold fixLines28
  by_cases hl : 28 < lines.length
  · rw [if_pos hl]
    exact get?_set_ne _ _ _ _ fun he => h he.symm
  · rw [if_neg hl]

/-- Witness for C5: a 30-line document every line of which contains the
find literal; line 0 is untouched. -/
theorem c5_line_isolation_witness :
    (fixLines28 (List.replicate 30 find28)).get? 0 = (List.replicate 30 find28).get? 0 :=
  c5_line_isolation (List.replicate 30 find28) 0 (by decide)

/-- Claim C6: invoking repair on a path that does not exist (or is not
readable) fails with `TargetUnavailable` before any write: the result is
the error alone, so no file is created or modified and no message is
printed. -/
theorem c6_target_unavailable (t : Doc → Doc) (m : FPath → String)
    (fs : FS) (p : FPath) (h : readFS fs p = none) :
    repair t m fs p = Except.error RepairError.targetUnavailable := by
  unfold repair
  rw [h]

/-- Witness for C6: repairing a path absent from an empty file system. -/
theorem c6_target_unavailable_witness :
    repair (fun d => d) (fun _ => "done") [] "print.js" =
      Except.error RepairError.targetUnavailable :=
  c6_target_unavailable (fun d => d) (fun _ => "done") [] "print.js" rfl

/-- Claim C7, as stated, is false: the write step is `open(path, "w")`
followed by `f.write(content)`, and opening for write truncates the
target at once — a write that fails after a successful open leaves the
target truncated, not in its pre-repair state.  Concretely, with
pre-repair content `"x"` and repaired text `"y"`, a write failing after
zero flushed characters leaves the target empty. -/
theorem c7_counterexample :
    WriteOutcome.failAfter 0 ≠ WriteOutcome.ok ∧
    diskAfterWrite (WriteOutcome.failAfter 0) "x".toList "y".toList ≠ "x".toList := by
  decide

/-- Claim C7, amended: if the write step fails because the target cannot
be opened for writing, the on-disk content remains exactly its pre-repair
state; but if the write fails after the open succeeded, the target is
left holding a (possibly empty) prefix of the repaired text — the
truncating, non-atomic write can leave it truncated or partially
rewritten. -/
theorem c7_disk_after_failed_write (old new : Doc) :
    diskAfterWrite WriteOutcome.ok old new = new ∧
    diskAfterWrite WriteOutcome.openFail old new = old ∧
    ∀ k, diskAfterWrite (WriteOutcome.failAfter k) old new ++ List.drop k new = new :=
  ⟨rfl, rfl, fun k => List.take_append_drop k new⟩

/-- Claim C8, as stated, is false: `fix-print-final2.py` prints the fixed
string `"Fixed remaining print.js errors"` whatever path it repaired, so
the completion message does not identify the repaired target.  Concretely
a successful repair of `"app.js"` emits a message in which `"app.js"`
does not occur. -/
theorem c8_counterexample :
    msgsOf (repairFinal2 [("app.js", [])] "app.js") = ["Fixed remaining print.js errors"] ∧
    containsSub "app.js".toList "Fixed remaining print.js errors".toList = false := by
  decide

/-- Claim C8, amended: on every successful repair exactly one completion
message is emitted on the status channel, and on any read or write
failure no message is emitted (in every script the `print` follows the
write block); the message names the repaired target in `fix-line28.py`
and `fix-print-backticks.py`, but `fix-print-python.py` and
`fix-print-final2.py` emit a fixed message that does not identify the
target. -/
theorem c8_completion_messages (fs : FS) (p : FPath) (d : Doc)
    (h : readFS fs p = some d) :
    msgsOf (repairLine28 fs p) = ["Fixed line 29 in " ++ p] ∧
    containsSub p.toList ("Fixed line 29 in " ++ p).toList = true ∧
    msgsOf (repairBackticks fs p) = ["Fixed backticks in " ++ p] ∧
    containsSub p.toList ("Fixed backticks in " ++ p).toList = true ∧
    msgsOf (repairPython fs p) = ["Fixed print.py syntax errors"] ∧
    msgsOf (repairFinal2 fs p) = ["Fixed remaining print.js errors"] ∧
    (∀ (t : Doc → Doc) (m : FPath → String) (fs2 : FS) (p2 : FPath),
      readFS fs2 p2 = none → msgsOf (repair t m fs2 p2) = []) ∧
    (∀ (t : Doc → Doc) (m : FPath → String) (w : WriteOutcome) (fs2 : FS) (p2 : FPath),
      w ≠ WriteOutcome.ok → (repairRun t m w fs2 p2).2 = []) ∧
    (∀ (t : Doc → Doc) (m : FPath → String) (fs2 : FS) (p2 : FPath),
      (repairRun t m WriteOutcome.ok fs2 p2).2 = msgsOf (repair t m fs2 p2)) := by
  have hmsg : ∀ (t : Doc → Doc) (m : FPath → String), msgsOf (repair t m fs p) = [m p] := by
    intro t m
    unfold repair
    rw [h]
    rfl
  have hnames : ∀ pre : String, containsSub p.toList (pre ++ p).toList = true := by
    intro pre
    show containsSub p.data (pre ++ p).data = true
    rw [String.data_append]
    exact containsSub_ends_with p.data pre.data
  refine ⟨hmsg _ _, hnames _, hmsg _ _, hnames _, hmsg _ _, hmsg _ _, ?_, ?_, ?_⟩
  · intro t m fs2 p2 h2
    unfold repair
    rw [h2]
    rfl
  · intro t m w fs2 p2 hw
    unfold repairRun
    cases hr : readFS fs2 p2 with
    | none => rfl
    | some d2 =>
      cases w with
      | ok => exact absurd rfl hw
      | openFail => rfl
      | failAfter k => rfl
  · intro t m fs2 p2
    unfold repairRun repair
    cases hr : readFS fs2 p2 with
    | none => rfl
    | some d2 => rfl

/-- Witness for the amended C8 at a concrete one-file file system. -/
theorem c8_completion_messages_witness :
    msgsOf (repairLine28 [("app.js", [])] "app.js") = ["Fixed line 29 in " ++ "app.js"] ∧
    containsSub "app.js".toList ("Fixed line 29 in " ++ "app.js").toList = true ∧
    msgsOf (repairBackticks [("app.js", [])] "app.js") = ["Fixed backticks in " ++ "app.js"] ∧
    containsSub "app.js".toList ("Fixed backticks in " ++ "app.js").toList = true ∧
    msgsOf (repairPython [("app.js", [])] "app.js") = ["Fixed print.py syntax errors"] ∧
    msgsOf (repairFinal2 [("app.js", [])] "app.js") = ["Fixed remaining print.js errors"] ∧
    (∀ (t : Doc → Doc) (m : FPath → String) (fs2 : FS) (p2 : FPath),
      readFS fs2 p2 = none → msgsOf (repair t m fs2 p2) = []) ∧
    (∀ (t : Doc → Doc) (m : FPath → String) (w : WriteOutcome) (fs2 : FS) (p2 : FPath),
      w ≠ WriteOutcome.ok → (repairRun t m w fs2 p2).2 = []) ∧
    (∀ (t : Doc → Doc) (m : FPath → String) (fs2 : FS) (p2 : FPath),
      (repairRun t m WriteOutcome.ok fs2 p2).2 = msgsOf (repair t m fs2 p2)) :=
  c8_completion_messages [("app.js", [])] "app.js" [] (by decide)

/-- Claim C9: a rule whose replace equals its find is the identity on
documents — applying it leaves the document unchanged, indistinguishable
from a rule whose find never occurred; the table of
`fix-print-backticks.py` really has such a rule (entry 14, source
line 22). -/
theorem c9_identity_rule (old s : Doc) :
    replaceAll old old s = s ∧
    (backticksRules.getD 14 ([], [])).1 = (backticksRules.getD 14 ([], [])).2 :=
  ⟨replaceAll_self old s, by decide⟩

/-- Claim C10: when the document has at most 28 lines, `fix-line28.py`
applies no rule and writes the document back unchanged; the length guard
means it never fails with an out-of-range index. -/
theorem c10_short_document_unchanged (s : Doc)
    (h : (readlines s).length ≤ 28) :
    line28Transform s = s := by
  unfold line28Transform fixLines28
  rw [if_neg (by omega), writelinesCat_readlines]

/-- Witness for C10 on a concrete two-line document. -/
theorem c10_short_document_unchanged_witness :
    line28Transform "ab\ncd".toList = "ab\ncd".toList :=
  c10_short_document_unchanged "ab\ncd".toList (by decide)
